import Mathlib

/-!
Verification of the QuantumCanvas backend (circuit intermediate representation,
its conversion layers and its rewrite pass) against its natural-language
specification.  The Python source under `backend/app` is shallowly embedded:
pydantic models become structures, pure functions become Lean functions, the
FastAPI endpoints become functions returning an explicit response type, and
the external toolkit objects (qiskit / cirq circuits) are embedded as the
structured data the source code actually reads off them.

Python conventions carried over explicitly:
* `Optional[List[...]]` fields are `Option (List _)`; Python truthiness of
  such a field (`if x:` is false for both `None` and `[]`) is `optListTruthy`.
* Python `float` parameters are modeled as `Rat` (exact values; float
  rounding is never load-bearing for the properties proved here), and
  symbolic/string parameters as `String`.
* Python `str` helpers (`strip`, `lower`, `startswith`) are re-implemented
  over character lists (`pyStrip`, `pyLower`, `pyStartsWith`) so that all
  definitions evaluate inside the kernel.
-/

/-- Gate parameter as carried by the JSON model: a number (Python float /
int, modeled exactly as a rational) or a symbolic-expression string. -/
inductive GateParam where
  | num (x : Rat)
  | sym (s : String)
deriving DecidableEq, Repr

/-- Embedding of `app/models.py` `GateModel`: pydantic validates only the
shape (name string, integer lists); no range or disjointness checks exist. -/
structure GateModel where
  name : String
  targets : List Nat
  controls : Option (List Nat)
  parameters : Option (List GateParam)
deriving DecidableEq, Repr

/-- Embedding of `app/models.py` `CircuitMetadata`. -/
structure CircuitMetadata where
  name : Option String
  description : Option String
deriving DecidableEq, Repr

/-- Embedding of `app/models.py` `CircuitJSON`.  `gate_counts` is a Python
dict in insertion order, embedded as an association list. -/
structure CircuitJSON where
  num_qubits : Nat
  gates : List GateModel
  metadata : Option CircuitMetadata
  gate_counts : Option (List (String × Nat))
  depth : Option Nat
deriving DecidableEq, Repr

/-- Python truthiness of an `Optional[List[...]]` value: `None` and the
empty list are falsy, a non-empty list is truthy. -/
def optListTruthy {α : Type} : Option (List α) → Bool
  | none => false
  | some l => !l.isEmpty

/-- Python truthiness of a plain list. -/
def listTruthy {α : Type} (l : List α) : Bool := !l.isEmpty

/-- Python whitespace characters stripped by `str.strip()`. -/
def pyWhitespace (c : Char) : Bool :=
  c == ' ' || c == '\t' || c == '\n' || c == '\r' || c == '\x0b' || c == '\x0c'

/-- Model of Python `str.strip()`: drop whitespace from both ends. -/
def pyStrip (s : String) : String :=
  ⟨((s.data.dropWhile pyWhitespace).reverse.dropWhile pyWhitespace).reverse⟩

/-- Model of Python `str.lower()` (ASCII lowering; gate names and the QASM
header are ASCII). -/
def pyLower (s : String) : String := ⟨s.data.map Char.toLower⟩

/-- Character-list version of the starts-with test. -/
def charsStartWith : List Char → List Char → Bool
  | [], _ => true
  | _ :: _, [] => false
  | a :: ps, b :: ss => a == b && charsStartWith ps ss

/-- Model of Python `str.startswith(p)`. -/
def pyStartsWith (s p : String) : Bool := charsStartWith p.data s.data

/-- Model of Python `str.endswith(p)` (used only to state properties about
generated text, not by the source itself). -/
def pyEndsWith (s p : String) : Bool := charsStartWith p.data.reverse s.data.reverse

/-- Rendering of a Python value `str(x)` for a gate parameter: numbers by
their decimal form (abstracted as the rational's default rendering — no
proved statement depends on the concrete digits of a non-integer), symbolic
strings verbatim. -/
def paramStr : GateParam → String
  | .num x => toString x
  | .sym s => s

/-! ## `app/services/optimization_passes.py` -/

/-- The fixed self-inverse single-qubit gate set of
`remove_self_inverse_pairs` (set literal in the source). -/
def SELF_INVERSE_SINGLE_QUBIT_GATES : List String := ["h", "x", "y", "z"]

/-- The pair-removal condition tested by the loop body of
`remove_self_inverse_pairs` (lines 26–34 of `optimization_passes.py`):
`current_gate.name.lower()` is in the self-inverse set, both gates have
exactly one target and falsy `controls`, the (case-sensitive) names and
the target lists coincide, and both `parameters` are falsy. -/
def selfInversePairCond (current_gate next_gate : GateModel) : Bool :=
  SELF_INVERSE_SINGLE_QUBIT_GATES.contains (pyLower current_gate.name) &&
  (current_gate.targets.length == 1 && !optListTruthy current_gate.controls) &&
  (next_gate.targets.length == 1 && !optListTruthy next_gate.controls) &&
  current_gate.name == next_gate.name &&
  current_gate.targets == next_gate.targets &&
  (!optListTruthy current_gate.parameters && !optListTruthy next_gate.parameters)

/-- The `while i < num_original_gates` loop of `remove_self_inverse_pairs`,
written structurally: at a removable pair the scan skips both gates
(`i += 2; continue`), otherwise it emits the current gate and advances by
one.  `removeLoopIndexed` below is the literal index-based loop and
`removeLoopIndexed_eq_scan` proves the two agree. -/
def selfInverseScan (p : GateModel → GateModel → Bool) : List GateModel → List GateModel
  | [] => []
  | [g] => [g]
  | g1 :: g2 :: rest =>
    if p g1 g2 then selfInverseScan p rest
    else g1 :: selfInverseScan p (g2 :: rest)

/-- Literal index-based rendering of the source's while loop over the fixed
list `gates`, producing the `optimized_gates` accumulator contents from
position `i` on. -/
def removeLoopIndexed (gates : List GateModel) (i : Nat) : List GateModel :=
  if h : i < gates.length then
    let current_gate := gates.get ⟨i, h⟩
    if h2 : i + 1 < gates.length then
      if selfInversePairCond current_gate (gates.get ⟨i + 1, h2⟩) then
        removeLoopIndexed gates (i + 2)
      else
        current_gate :: removeLoopIndexed gates (i + 1)
    else
      current_gate :: removeLoopIndexed gates (i + 1)
  else
    []
termination_by gates.length - i

/-- Embedding of `remove_self_inverse_pairs`: new `CircuitJSON` with the
scanned gate list, copied `num_qubits` and `metadata`, and `gate_counts`
and `depth` set to `None`. -/
def remove_self_inverse_pairs (circuit_json : CircuitJSON) : CircuitJSON :=
  { num_qubits := circuit_json.num_qubits
    gates := selfInverseScan selfInversePairCond circuit_json.gates
    metadata := circuit_json.metadata
    gate_counts := none
    depth := none }

/-- Embedding of `OPTIMIZATION_PASS_REGISTRY`. -/
def OPTIMIZATION_PASS_REGISTRY : List (String × (CircuitJSON → CircuitJSON)) :=
  [("remove_self_inverse_pairs", remove_self_inverse_pairs)]

/-! ## `app/routers/circuit.py` — QASM export -/

/-- A QASM qubit reference `q[i]`. -/
def qasmQubitRef (i : Nat) : String := "q[" ++ toString i ++ "]"

/-- One exported gate line, exactly as built by the loop body of
`export_circuit_to_qasm` (lines 104–124 of `circuit.py`): name, optional
parenthesized comma-joined parameters, a space, the comma-joined qubit
references (`controls` extended first when truthy, then `targets`), and a
terminating semicolon. -/
def qasmGateLine (gate_model : GateModel) : String :=
  let gate_str := gate_model.name
  let gate_str :=
    if optListTruthy gate_model.parameters then
      gate_str ++ "(" ++
        String.intercalate "," ((gate_model.parameters.getD []).map paramStr) ++ ")"
    else gate_str
  let gate_str := gate_str ++ " "
  let qubit_args : List String :=
    (if optListTruthy gate_model.controls then
      (gate_model.controls.getD []).map qasmQubitRef
    else []) ++ gate_model.targets.map qasmQubitRef
  gate_str ++ String.intercalate "," qubit_args ++ ";"

/-- Embedding of the `/circuit/export/qasm` endpoint body
(`export_circuit_to_qasm`): fixed two-line header, a `qreg` declaration when
`num_qubits > 0`, then one line per gate, joined by newlines. -/
def export_circuit_to_qasm (circuit_json : CircuitJSON) : String :=
  let qasm_lines := ["OPENQASM 2.0;", "include \"qelib1.inc\";"]
  let qasm_lines :=
    if circuit_json.num_qubits > 0 then
      qasm_lines ++ ["qreg q[" ++ toString circuit_json.num_qubits ++ "];"]
    else qasm_lines
  String.intercalate "\n" (qasm_lines ++ circuit_json.gates.map qasmGateLine)

/-! ## External-library shape: qiskit circuits as read by the source

`qiskit_circuit_to_json` touches a `QuantumCircuit` only through
`qc.num_qubits`, `qc.name`, `qc.depth()` and, per instruction, `op.name`,
the qubit indices resolved by `qc.find_bit`, `op.params` and (when present)
`op.num_ctrl_qubits`.  That interface is embedded as plain data. -/

/-- One qiskit instruction as consumed by `qiskit_circuit_to_json`:
lower-level qubit objects are already resolved to their indices, and
parameters are already classified as numeric or symbolic (the source's
`isinstance` cascade maps float/int to float and everything else to its
string form). -/
structure QiskitInstruction where
  name : String
  qubits : List Nat
  params : List GateParam
  num_ctrl_qubits : Option Nat
deriving DecidableEq, Repr

/-- The slice of a qiskit `QuantumCircuit` that the source reads.  `depth`
stands for the result of `qc.depth()` (`none` models the `except` fallback). -/
structure QiskitCircuit where
  num_qubits : Nat
  name : String
  data : List QiskitInstruction
  depth : Option Nat
deriving DecidableEq, Repr

/-- Gate names treated as controlled by `qiskit_circuit_to_json`
(line 58 of `circuit_conversions.py`). -/
def QISKIT_CONTROLLED_NAMES : List String :=
  ["cx", "cz", "ccx", "mcx", "mcz", "mcrx", "mcry", "mcrz"]

/-- Python-dict upsert for the gate-count histogram
(`gate_counts_dict[name] = gate_counts_dict.get(name, 0) + 1`). -/
def bumpCount : List (String × Nat) → String → List (String × Nat)
  | [], name => [(name, 1)]
  | (k, v) :: rest, name =>
    if k == name then (k, v + 1) :: rest else (k, v) :: bumpCount rest name

/-- The gate-count histogram computed by both importers. -/
def gateCounts (gates : List GateModel) : List (String × Nat) :=
  gates.foldl (fun acc gate => bumpCount acc gate.name) []

/-- Per-instruction body of the `for instruction in qc.data` loop of
`qiskit_circuit_to_json` (lines 47–94): lowercase the name; split a
controlled-name instruction's qubit list into a control block of size
`num_ctrl_qubits` (with the hard-coded fallback counts for `cx`/`cz`/`ccx`)
and the remaining targets, but only when the count is positive and smaller
than the qubit list; parameters become a non-`None` list exactly when
`op.params` is truthy. -/
def qiskitGateToModel (inst : QiskitInstruction) : GateModel :=
  { name := pyLower inst.name
    targets := (qiskitControlSplit inst).2
    controls := (qiskitControlSplit inst).1
    parameters := if listTruthy inst.params then some inst.params else none }
where
  /-- the control count: `op.num_ctrl_qubits` when the attribute exists,
  else the hard-coded fallback for `cx`/`cz`/`ccx` (otherwise 0) -/
  qiskitNumControls (inst : QiskitInstruction) : Nat :=
    match inst.num_ctrl_qubits with
    | some n => n
    | none =>
      if pyLower inst.name == "cx" then 1
      else if pyLower inst.name == "cz" then 1
      else if pyLower inst.name == "ccx" then 2
      else 0
  /-- the control/target split of the instruction's qubit list -/
  qiskitControlSplit (inst : QiskitInstruction) : Option (List Nat) × List Nat :=
    let targets := inst.qubits
    if QISKIT_CONTROLLED_NAMES.contains (pyLower inst.name) then
      let num_controls := qiskitNumControls inst
      if num_controls > 0 && targets.length > num_controls then
        (some (targets.take num_controls), targets.drop num_controls)
      else (none, targets)
    else (none, targets)

/-- Embedding of `qiskit_circuit_to_json` (`circuit_conversions.py`
lines 39–115). -/
def qiskit_circuit_to_json (qc : QiskitCircuit) : CircuitJSON :=
  let gates := qc.data.map qiskitGateToModel
  let metadata : CircuitMetadata :=
    { name := some (if qc.name == "" then "Converted Qiskit Circuit" else qc.name)
      description := none }
  let gate_counts_dict := gateCounts gates
  { num_qubits := qc.num_qubits
    gates := gates
    metadata := some metadata
    gate_counts := if listTruthy gate_counts_dict then some gate_counts_dict else none
    depth := qc.depth }

/-! ## `circuit_json_to_qiskit` and the modeled qiskit builder interface -/

/-- Embedding of `QISKIT_GATE_MAP` (`circuit_conversions.py` lines 14–37). -/
def QISKIT_GATE_MAP : List (String × String) :=
  [("h", "h"), ("x", "x"), ("y", "y"), ("z", "z"), ("s", "s"), ("sdg", "sdg"),
   ("t", "t"), ("tdg", "tdg"), ("rx", "rx"), ("ry", "ry"), ("rz", "rz"),
   ("cx", "cx"), ("cnot", "cx"), ("cz", "cz"), ("swap", "swap"), ("ccx", "ccx"),
   ("toffoli", "ccx"), ("id", "id"), ("u", "u"), ("u3", "u"), ("p", "p")]

/-- Model of the external qiskit `QuantumCircuit` builder interface used by
`circuit_json_to_qiskit`: which gate methods exist on the circuit object,
and the parameter/qubit arity each method demands.  A name absent from the
table is the `AttributeError` (warning-and-skip) case; an arity or qubit
range violation raises inside the call and is also caught-and-skipped. -/
def qiskitMethodArity : String → Option (Nat × Nat)
  | "h" => some (0, 1) | "x" => some (0, 1) | "y" => some (0, 1)
  | "z" => some (0, 1) | "s" => some (0, 1) | "sdg" => some (0, 1)
  | "t" => some (0, 1) | "tdg" => some (0, 1) | "id" => some (0, 1)
  | "rx" => some (1, 1) | "ry" => some (1, 1) | "rz" => some (1, 1)
  | "p" => some (1, 1) | "u" => some (3, 1)
  | "cx" => some (0, 2) | "cy" => some (0, 2) | "cz" => some (0, 2)
  | "ch" => some (0, 2) | "swap" => some (0, 2)
  | "crx" => some (1, 2) | "cry" => some (1, 2) | "crz" => some (1, 2)
  | "cp" => some (1, 2)
  | "ccx" => some (0, 3) | "cswap" => some (0, 3)
  | _ => none

/-- Model of `num_ctrl_qubits` presence on the instruction a qiskit gate
method appends: only the controlled standard gates carry the attribute. -/
def qiskitStdNumCtrl : String → Option Nat
  | "cx" => some 1 | "cy" => some 1 | "cz" => some 1 | "ch" => some 1
  | "crx" => some 1 | "cry" => some 1 | "crz" => some 1 | "cp" => some 1
  | "ccx" => some 2 | "cswap" => some 1
  | _ => none

/-- Depth of a qiskit circuit (`qc.depth()`): longest chain of instructions
through shared qubits, computed with a per-qubit running depth. -/
def qiskitDepth (data : List QiskitInstruction) : Nat :=
  let finalMap := data.foldl
    (fun (m : List (Nat × Nat)) inst =>
      let d := 1 + (inst.qubits.map (fun q => ((m.lookup q).getD 0))).foldl max 0
      inst.qubits.foldl (fun acc q => bumpTo acc q d) m)
    []
  finalMap.foldl (fun a p => max a p.2) 0
where
  /-- assoc-list overwrite used by the depth computation -/
  bumpTo : List (Nat × Nat) → Nat → Nat → List (Nat × Nat)
    | [], q, d => [(q, d)]
    | (k, v) :: rest, q, d =>
      if k == q then (k, d) :: rest else (k, v) :: bumpTo rest q d

/-- Embedding of `circuit_json_to_qiskit` (`circuit_conversions.py`
lines 117–153): map the lowercased name through `QISKIT_GATE_MAP` (falling
back to the name itself), concatenate truthy `controls` before `targets`,
and call the matching builder method; a missing method or a failing call
skips the gate.  The resulting circuit name defaults to the builder's
auto-generated name, modeled as `"circuit"`. -/
def circuit_json_to_qiskit (circuit_json : CircuitJSON) : QiskitCircuit :=
  let name :=
    match circuit_json.metadata with
    | some m => match m.name with
      | some n => if n == "" then "circuit" else n
      | none => "circuit"
    | none => "circuit"
  let data := circuit_json.gates.foldl
    (fun (acc : List QiskitInstruction) gate_model =>
      let gate_name_lower := pyLower gate_model.name
      let qiskit_gate_name := (QISKIT_GATE_MAP.lookup gate_name_lower).getD gate_name_lower
      let params := gate_model.parameters.getD []
      let qubits_for_gate :=
        (if optListTruthy gate_model.controls then gate_model.controls.getD [] else []) ++
          gate_model.targets
      match qiskitMethodArity qiskit_gate_name with
      | none => acc
      | some (nparams, nqubits) =>
        if params.length == nparams && qubits_for_gate.length == nqubits &&
            qubits_for_gate.all (fun q => q < circuit_json.num_qubits) then
          acc ++ [{ name := qiskit_gate_name
                    qubits := qubits_for_gate
                    params := params
                    num_ctrl_qubits := qiskitStdNumCtrl qiskit_gate_name }]
        else acc)
    []
  { num_qubits := circuit_json.num_qubits
    name := name
    data := data
    depth := some (qiskitDepth data) }

/-! ## `/circuit/parse` and `/circuit/optimize` endpoints -/

/-- Response of an endpoint: either an `HTTPException`-style client error
(status code and detail message) or a returned circuit. -/
inductive EndpointResponse where
  | httpError (status_code : Nat) (detail : String)
  | ok (circuit : CircuitJSON)
deriving DecidableEq, Repr

/-- The version-gate test of `parse_qasm_to_json` (line 37 of `circuit.py`):
`qasm_string.strip().lower().startswith("openqasm 2.0;")`. -/
def qasmVersionOk (qasm_string : String) : Bool :=
  pyStartsWith (pyLower (pyStrip qasm_string)) "openqasm 2.0;"

/-- The rejection detail of the version gate. -/
def versionGateDetail : String :=
  "Only OpenQASM 2.0 strings are supported by this endpoint currently. String must start with \x27OPENQASM 2.0;\x27."

/-- Embedding of the `/circuit/parse` endpoint (`parse_qasm_to_json`,
`circuit.py` lines 32–49).  The external parser `qasm2.loads` is passed in
as a function; `none` models a raised parsing exception (mapped to a 400
error whose detail wraps the exception text, abstracted here). -/
def parse_qasm_to_json (loads : String → Option QiskitCircuit)
    (qasm_string : String) : EndpointResponse :=
  if !qasmVersionOk qasm_string then
    .httpError 400 versionGateDetail
  else
    match loads qasm_string with
    | none => .httpError 400 "Qiskit QASM Parsing Error"
    | some qc => .ok (qiskit_circuit_to_json qc)

/-- Embedding of `OptimizationRequest` (`models.py`). -/
structure OptimizationRequest where
  circuit : CircuitJSON
  passes : List String
deriving Repr

/-- Embedding of the `/circuit/optimize` endpoint (`optimize_circuit`,
`circuit.py` lines 51–87): fold the requested passes through the registry
(an unknown name leaves the circuit untouched), then — whenever
`gate_counts` or `depth` is `None` on the result — recompute statistics by
round-tripping through the qiskit representation. -/
def optimize_circuit (optimization_request : OptimizationRequest) : CircuitJSON :=
  let optimized_circuit_json := optimization_request.passes.foldl
    (fun current pass_name =>
      match OPTIMIZATION_PASS_REGISTRY.lookup pass_name with
      | some optimizer_func => optimizer_func current
      | none => current)
    optimization_request.circuit
  match optimized_circuit_json.gate_counts, optimized_circuit_json.depth with
  | some _, some _ => optimized_circuit_json
  | _, _ => qiskit_circuit_to_json (circuit_json_to_qiskit optimized_circuit_json)

/-! ## External-library shape: cirq circuits as read by the source

`cirq_circuit_to_json` walks `cc` moment by moment and inspects each
operation's gate with `isinstance` checks against cirq's gate classes.
The closed set of shapes the source distinguishes is embedded as an
inductive type; `LineQubit`s are carried as their integer coordinate. -/

/-- Cirq gate shapes distinguished by `_get_cirq_gate_name` and
`cirq_circuit_to_json`.  `controlled` is `cirq.ops.ControlledGate` with its
`sub_gate` and declared `control_qubits` (so `num_controls()` is their
count); the `pow` constructors carry the class's `exponent`; `rx`/`ry`/`rz`
carry `_rads` (cirq's rotation classes; their exponent is `rads/pi`, never
an integer for the rational-valued instances modeled here); `other` is any
gate object matching none of the inspected classes, carried as its
printable form `str(gate)`. -/
inductive CirqGate where
  | controlled (sub_gate : CirqGate) (control_qubits : List Nat)
  | hpow (exponent : Rat)
  | xpow (exponent : Rat)
  | ypow (exponent : Rat)
  | zpow (exponent : Rat)
  | rx (rads : Rat)
  | ry (rads : Rat)
  | rz (rads : Rat)
  | cnotpow (exponent : Rat)
  | czpow (exponent : Rat)
  | swappow (exponent : Rat)
  | identity (num_qubits : Nat)
  | fsim (theta phi : Rat)
  | other (printable : String)
deriving DecidableEq, Repr

/-- Model of Python `str(gate)` for a cirq gate, used only by the fallback
branch of `_get_cirq_gate_name` (names follow cirq's printable forms; loses
nothing for the gates whose recognition the claims exercise, which never
reach the fallback). -/
def cirqGateStr : CirqGate → String
  | .controlled sub _ => "c" ++ cirqGateStr sub
  | .hpow e => if e == 1 then "H" else "H**" ++ toString e
  | .xpow e => if e == 1 then "X" else "X**" ++ toString e
  | .ypow e => if e == 1 then "Y" else "Y**" ++ toString e
  | .zpow e => if e == 1 then "Z" else "Z**" ++ toString e
  | .rx r => "Rx(rads=" ++ toString r ++ ")"
  | .ry r => "Ry(rads=" ++ toString r ++ ")"
  | .rz r => "Rz(rads=" ++ toString r ++ ")"
  | .cnotpow e => if e == 1 then "CNOT" else "CNOT**" ++ toString e
  | .czpow e => if e == 1 then "CZ" else "CZ**" ++ toString e
  | .swappow e => if e == 1 then "SWAP" else "SWAP**" ++ toString e
  | .identity n => "I(" ++ toString n ++ ")"
  | .fsim t p => "FSimGate(theta=" ++ toString t ++ ", phi=" ++ toString p ++ ")"
  | .other printable => printable

/-- The fallback naming of `_get_cirq_gate_name` (lines 236–253): lowercase
`str(gate)`, truncate at the first `(`, then map a handful of cirq names to
canonical ones, with `"unknown"` for an empty result. -/
def cirqFallbackName (gate : CirqGate) : String :=
  let name := pyLower (cirqGateStr gate)
  let name := if name.data.contains '(' then ⟨name.data.takeWhile (fun c => !(c == '('))⟩ else name
  if name == "h" then "h"
  else if name == "x" then "x"
  else if name == "y" then "y"
  else if name == "z" then "z"
  else if name == "s" then "s"
  else if name == "t" then "t"
  else if name == "cnot" then "cx"
  else if name == "cz" then "cz"
  else if name == "swap" then "swap"
  else if name == "i" then "id"
  else if name == "" then "unknown" else name

/-- Embedding of `_get_cirq_gate_name` (`circuit_conversions.py`
lines 205–253): a controlled wrapper is unwrapped recursively, its name
synthesized by prefixing `c` (one control) or `c<n>_` (n controls) to the
sub-gate's name; then the `isinstance` cascade over the pow/rotation
classes with their distinguished exponents; unmatched gates go through the
printable-form fallback. -/
def _get_cirq_gate_name : CirqGate → String
  | .controlled sub_gate control_qubits =>
    let sub_gate_name := _get_cirq_gate_name sub_gate
    if control_qubits.length == 1 then "c" ++ sub_gate_name
    else "c" ++ toString control_qubits.length ++ "_" ++ sub_gate_name
  | .hpow e => if e == 1 then "h" else cirqFallbackName (.hpow e)
  | .xpow e => if e == 1 then "x" else cirqFallbackName (.xpow e)
  | .ypow e => if e == 1 then "y" else cirqFallbackName (.ypow e)
  | .zpow e =>
    if e == 1 then "z"
    else if e == (1 : Rat) / 2 then "s"
    else if e == -((1 : Rat) / 2) then "sdg"
    else if e == (1 : Rat) / 4 then "t"
    else if e == -((1 : Rat) / 4) then "tdg"
    else "z**" ++ toString e
  | .rx _ => "rx"
  | .ry _ => "ry"
  | .rz _ => "rz"
  | .cnotpow e => if e == 1 then "cx" else cirqFallbackName (.cnotpow e)
  | .czpow e => if e == 1 then "cz" else cirqFallbackName (.czpow e)
  | .swappow e => if e == 1 then "swap" else cirqFallbackName (.swappow e)
  | .identity _ => "id"
  | .fsim t p => cirqFallbackName (.fsim t p)
  | .other printable => cirqFallbackName (.other printable)

/-- A cirq operation: a gate applied to qubits (`LineQubit`s carried as
their integer coordinate, in the operation's native order — for a
controlled operation the control qubits come first, as cirq appends them). -/
structure CirqOperation where
  gate : CirqGate
  qubits : List Nat
deriving DecidableEq, Repr

/-- A cirq circuit as walked by `cirq_circuit_to_json`: a list of moments,
each a list of operations. -/
structure CirqCircuit where
  moments : List (List CirqOperation)
deriving DecidableEq, Repr

/-- Index of the first occurrence of `q` in a list, if any. -/
def idxOf? : List Nat → Nat → Option Nat
  | [], _ => none
  | x :: xs, q => if x == q then some 0 else (idxOf? xs q).map (· + 1)

/-- The sorted qubit universe of a cirq circuit
(`sorted(list(cc.all_qubits()))` keyed by the line coordinate): the
deduplicated qubits of all operations in ascending order. -/
def cirqAllQubits (cc : CirqCircuit) : List Nat :=
  List.insertionSort (· ≤ ·) ((cc.moments.flatMap (fun m => m.flatMap (fun op => op.qubits))).dedup)

/-- Per-operation body of the moment loop of `cirq_circuit_to_json`
(`circuit_conversions.py` lines 353–414), against an arbitrary
qubit-to-index map: recover the canonical name via `_get_cirq_gate_name`;
extract rotation/phase/fsim parameters; split control and target qubits
for controlled wrappers and for the natively controlled pow-gates; default
the targets to all operation qubits when the split left them empty; and
null out falsy control/parameter lists. -/
def cirqOpToGateModel (qmap : Nat → Option Nat) (op : CirqOperation) : GateModel :=
  let gate := op.gate
  let gate_name := _get_cirq_gate_name gate
  let op_qubits_indices := op.qubits.filterMap qmap
  let parameters : List GateParam :=
    match gate with
    | .rx r => [.num r]
    | .ry r => [.num r]
    | .rz r => [.num r]
    | .zpow e =>
      if e == 1 || e == (1 : Rat) / 2 || e == -((1 : Rat) / 2) ||
          e == (1 : Rat) / 4 || e == -((1 : Rat) / 4) then []
      else [.num e]
    | .fsim t p => [.num t, .num p]
    | _ => []
  let split : List Nat × List Nat :=
    match gate with
    | .controlled _ control_qubits =>
      let controls := control_qubits.filterMap qmap
      let sub_gate_target_qubits_in_op :=
        op.qubits.filter (fun q => !(control_qubits.contains q))
      (sub_gate_target_qubits_in_op.filterMap qmap, controls)
    | .cnotpow _ =>
      (match op_qubits_indices with
       | [a, b] => ([b], [a])
       | l => (l, []))
    | .czpow _ =>
      (match op_qubits_indices with
       | [a, b] => ([b], [a])
       | l => (l, []))
    | .swappow _ =>
      (match op_qubits_indices with
       | [a, b] => ([a, b], [])
       | _ => ([], []))
    | _ => (op_qubits_indices, [])
  let targets :=
    if split.1.isEmpty && !op_qubits_indices.isEmpty then op_qubits_indices else split.1
  { name := pyLower gate_name
    targets := targets
    controls := if listTruthy split.2 then some split.2 else none
    parameters := if listTruthy parameters then some parameters else none }

/-- Embedding of `cirq_circuit_to_json` (`circuit_conversions.py`
lines 343–428).  `name` is the function's `name` argument
(default `"Converted Cirq Circuit"`); cirq depth is left `None`. -/
def cirq_circuit_to_json (cc : CirqCircuit)
    (name : Option String := some "Converted Cirq Circuit") : CircuitJSON :=
  let sorted_qubits := cirqAllQubits cc
  let qmap := fun q => idxOf? sorted_qubits q
  let gates_data := (cc.moments.flatMap id).map (cirqOpToGateModel qmap)
  let gate_counts_dict := gateCounts gates_data
  { num_qubits := sorted_qubits.length
    gates := gates_data
    metadata := some { name := name, description := none }
    gate_counts := if listTruthy gate_counts_dict then some gate_counts_dict else none
    depth := none }

/-! ## `circuit_json_to_pennylane_script` -/

/-- Embedding of `PENNYLANE_GATE_MAP` as canonical name ↦ the pennylane
class's `__name__` (the only datum the script generator uses). -/
def PENNYLANE_GATE_MAP : List (String × String) :=
  [("h", "Hadamard"), ("x", "PauliX"), ("y", "PauliY"), ("z", "PauliZ"),
   ("s", "S"), ("t", "T"), ("rx", "RX"), ("ry", "RY"), ("rz", "RZ"),
   ("cx", "CNOT"), ("cnot", "CNOT"), ("cz", "CZ"), ("swap", "SWAP"),
   ("id", "Identity"), ("toffoli", "Toffoli"), ("ccx", "Toffoli"),
   ("ch", "CH"), ("crx", "CRX"), ("cry", "CRY"), ("crz", "CRZ"),
   ("cswap", "CSWAP")]

/-- The natively-controlled name list of `circuit_json_to_pennylane_script`
(lines 481–484 of `circuit_conversions.py`). -/
def PENNYLANE_NATIVE_CONTROLLED : List String :=
  ["cx", "cnot", "cz", "toffoli", "ccx", "ch", "crx", "cry", "crz", "cswap"]

/-- Python `f"{l}"` for a list of ints: bracketed, comma-space separated. -/
def pyIntListStr (l : List Nat) : String :=
  "[" ++ String.intercalate ", " (l.map toString) ++ "]"

/-- Model of whether Python `float(s)` succeeds on a string (simplified to
optionally-signed decimal literals; no proved statement depends on its
verdict). -/
def pyFloatParses (s : String) : Bool :=
  let chars := s.data
  let chars :=
    match chars with
    | c :: rest => if c == '+' || c == '-' then rest else chars
    | [] => []
  !chars.isEmpty && chars.all (fun c => c.isDigit || c == '.') &&
    (chars.filter (fun c => c == '.')).length ≤ 1 &&
    chars.any (fun c => c.isDigit)

/-- Model of Python `str(float(x))` (decimal rendering, abstracted as the
rational's default rendering). -/
def pyFloatStr (x : Rat) : String := toString x

/-- The parameter-literal rendering loop of
`circuit_json_to_pennylane_script` (lines 491–501): recognize the symbolic
tokens `pi`, `pi/2`, `pi/4`; keep float-parseable strings verbatim; quote
anything else; render numbers via `str(float(.))`. -/
def pennylaneParamStrs (params : List GateParam) : List String :=
  params.map fun p =>
    match p with
    | .sym s =>
      if pyLower s == "pi" then "np.pi"
      else if pyLower s == "pi/2" then "np.pi/2"
      else if pyLower s == "pi/4" then "np.pi/4"
      else if pyFloatParses s then s
      else "\x27" ++ s ++ "\x27"
    | .num x => pyFloatStr x

/-- The line contributed by one gate to the generated pennylane script
(loop body, lines 477–545 of `circuit_conversions.py`): an operation call
(indented four spaces) or a warning comment; exactly one line per gate. -/
def pennylaneGateLine (gate_model : GateModel) : String :=
  let gate_name_lower := pyLower gate_model.name
  let pennylane_op_name := PENNYLANE_GATE_MAP.lookup gate_name_lower
  let is_natively_controlled_in_map := PENNYLANE_NATIVE_CONTROLLED.contains gate_name_lower
  let target_wires_str :=
    match gate_model.targets with
    | [t] => toString t
    | l => pyIntListStr l
  let params_str_for_op :=
    String.intercalate ", "
      (if optListTruthy gate_model.parameters then
        pennylaneParamStrs (gate_model.parameters.getD [])
      else [])
  if optListTruthy gate_model.controls then
    match pennylane_op_name with
    | none =>
      "    # Warning: Gate \x27" ++ gate_model.name ++
        "\x27 (with controls) not found or base for qml.ctrl not identified in PENNYLANE_GATE_MAP. Skipping."
    | some cname =>
      if !is_natively_controlled_in_map then
        let base_op_call_args :=
          (if params_str_for_op == "" then [] else [params_str_for_op]) ++
            ["wires=" ++ target_wires_str]
        let base_op_str := "qml." ++ cname ++ "(" ++ String.intercalate ", " base_op_call_args ++ ")"
        let control_wires_str :=
          match gate_model.controls.getD [] with
          | [c] => toString c
          | l => pyIntListStr l
        "    " ++ "qml.ctrl(" ++ base_op_str ++ ", control=" ++ control_wires_str ++ ")"
      else
        let all_wires := gate_model.controls.getD [] ++ gate_model.targets
        let op_call_args :=
          (if params_str_for_op == "" then [] else [params_str_for_op]) ++
            ["wires=" ++ pyIntListStr all_wires]
        "    " ++ "qml." ++ cname ++ "(" ++ String.intercalate ", " op_call_args ++ ")"
  else
    match pennylane_op_name with
    | none =>
      "    # Warning: Gate \x27" ++ gate_model.name ++ "\x27 not found in PENNYLANE_GATE_MAP. Skipping."
    | some cname =>
      let wires_arg :=
        if gate_name_lower == "swap" && gate_model.targets.length == 2 then
          "wires=" ++ pyIntListStr gate_model.targets
        else "wires=" ++ target_wires_str
      let op_call_args :=
        (if params_str_for_op == "" then [] else [params_str_for_op]) ++ [wires_arg]
      "    " ++ "qml." ++ cname ++ "(" ++ String.intercalate ", " op_call_args ++ ")"

/-- The fixed script header (lines 462–470). -/
def pennylaneHeader (num_qubits : Nat) (device_name : String) : List String :=
  ["import pennylane as qml",
   "from pennylane import numpy as np",
   "",
   "dev = qml.device(\x27" ++ device_name ++ "\x27, wires=" ++ toString num_qubits ++ ")",
   "",
   "@qml.qnode(dev)",
   "def circuit():"]

/-- The fixed measurement/return statement appended after the gate lines. -/
def pennylaneReturnLine : String :=
  "    return qml.expval(qml.PauliZ(0)) # Example measurement"

/-- First trailing comment element (appended with an embedded newline, so
it renders as a blank line followed by the comment). -/
def pennylaneTrailingComment1 : String := "\n# To run the circuit:"

/-- Second (final) trailing comment line of every non-empty-circuit script. -/
def pennylaneTrailingComment2 : String := "# print(circuit())"

/-- Embedding of `circuit_json_to_pennylane_script` (`circuit_conversions.py`
lines 460–551): header, then — for the zero-qubit case — the trivial body
and a `qml.state()` return; otherwise one line per gate, the fixed return
statement, and the two trailing comment elements; all joined by newlines. -/
def circuit_json_to_pennylane_script (circuit_json : CircuitJSON)
    (device_name : String := "default.qubit") : String :=
  let script_lines := pennylaneHeader circuit_json.num_qubits device_name
  if circuit_json.num_qubits == 0 then
    String.intercalate "\n"
      (script_lines ++ ["    pass # No qubits in circuit", "    return qml.state()"])
  else
    String.intercalate "\n"
      (script_lines ++ circuit_json.gates.map pennylaneGateLine ++
        [pennylaneReturnLine, pennylaneTrailingComment1, pennylaneTrailingComment2])

/-! ## The external text parser, modeled at the instruction level (for C2) -/

/-- Modelled from the spec: the standard-library (`qelib1.inc`) gate table
of the external assembly dialect — per gate name its parameter arity, its
qubit arity, and, for the standard controlled gates, the control count the
parsed standard-gate object declares (`num_ctrl_qubits`).  The spec (§1,
§4.2, §6) delegates text parsing to an external assembly-grammar library
assumed correct; the table lists the subset of the standard library needed
here. -/
def QELIB1_GATES : List (String × (Nat × Nat × Option Nat)) :=
  [("h", (0, 1, none)), ("x", (0, 1, none)), ("y", (0, 1, none)), ("z", (0, 1, none)),
   ("s", (0, 1, none)), ("sdg", (0, 1, none)), ("t", (0, 1, none)), ("tdg", (0, 1, none)),
   ("id", (0, 1, none)), ("rx", (1, 1, none)), ("ry", (1, 1, none)), ("rz", (1, 1, none)),
   ("u1", (1, 1, none)), ("u2", (2, 1, none)), ("u3", (3, 1, none)), ("p", (1, 1, none)),
   ("cx", (0, 2, some 1)), ("cy", (0, 2, some 1)), ("cz", (0, 2, some 1)),
   ("ch", (0, 2, some 1)), ("swap", (0, 2, none)),
   ("crx", (1, 2, some 1)), ("cry", (1, 2, some 1)), ("crz", (1, 2, some 1)),
   ("cu1", (1, 2, some 1)), ("cp", (1, 2, some 1)),
   ("ccx", (0, 3, some 2)), ("cswap", (0, 3, some 1)), ("cu3", (3, 2, some 1))]

/-- Whether one exported gate line is a well-formed instruction of the text
dialect: a known standard-library gate, numeric parameters of the declared
arity, and qubit references of the declared arity all inside the declared
register. -/
def qasmLineParses (num_qubits : Nat) (g : GateModel) : Bool :=
  match QELIB1_GATES.lookup g.name with
  | none => false
  | some (nparams, nqubits, _) =>
    let params := g.parameters.getD []
    let qubit_refs :=
      (if optListTruthy g.controls then g.controls.getD [] else []) ++ g.targets
    params.length == nparams &&
      params.all (fun p => match p with | .num _ => true | .sym _ => false) &&
      qubit_refs.length == nqubits && qubit_refs.all (fun q => q < num_qubits)

/-- The qiskit instruction the external parser produces for one exported
gate line: the line's gate name, its qubit references in line order
(controls were printed before targets), its numeric parameters, and the
standard gate's declared control count. -/
def qelib1Instruction (g : GateModel) : QiskitInstruction :=
  { name := g.name
    qubits := (if optListTruthy g.controls then g.controls.getD [] else []) ++ g.targets
    params := g.parameters.getD []
    num_ctrl_qubits := (QELIB1_GATES.lookup g.name).bind (fun t => t.2.2) }

/-- Modelled from the spec: the external parser (`qasm2.loads`) applied to
`export_circuit_to_qasm c`, at the instruction level.  It succeeds exactly
when the register is declared (`num_qubits > 0`) and every gate line is a
well-formed standard-library instruction, and then returns one instruction
per line; the parser's auto-generated circuit name is modeled as
`"circuit"` and its depth as the rebuilt circuit's depth. -/
def qasm2_loads_of_export (c : CircuitJSON) : Option QiskitCircuit :=
  if c.num_qubits > 0 && c.gates.all (qasmLineParses c.num_qubits) then
    some { num_qubits := c.num_qubits
           name := "circuit"
           data := c.gates.map qelib1Instruction
           depth := some (qiskitDepth (c.gates.map qelib1Instruction)) }
  else none

/-- Circuit equality "up to gate order and numeric parameter precision" as
used by the spec's round-trip property: same qubit count, same gates up to
permutation (parameters are exact rationals here, so precision is exact);
metadata and the derived statistics are recomputed by the importer and not
compared. -/
def circuitEquivUpToOrder (a b : CircuitJSON) : Prop :=
  a.num_qubits = b.num_qubits ∧ a.gates.Perm b.gates

instance (a b : CircuitJSON) : Decidable (circuitEquivUpToOrder a b) := by
  unfold circuitEquivUpToOrder
  infer_instance

/-- The gate shapes for which the text round trip is claimed in the amended
C2: lowercase dialect names with their canonical control/target split
(uncontrolled one-qubit gates, one-parameter rotations, `swap`, and
`cx`/`cz`/`ccx` with exactly the declared controls), all indices in range. -/
def textRoundTripSafeGate (num_qubits : Nat) (g : GateModel) : Bool :=
  (if ["h", "x", "y", "z", "s", "sdg", "t", "tdg", "id"].contains g.name then
    g.targets.length == 1 && g.controls == none && g.parameters == none
  else if ["rx", "ry", "rz"].contains g.name then
    g.targets.length == 1 && g.controls == none &&
      (match g.parameters with | some [.num _] => true | _ => false)
  else if g.name == "swap" then
    g.targets.length == 2 && g.controls == none && g.parameters == none
  else if ["cx", "cz"].contains g.name then
    (match g.controls with | some [_] => true | _ => false) &&
      g.targets.length == 1 && g.parameters == none
  else if g.name == "ccx" then
    (match g.controls with | some [_, _] => true | _ => false) &&
      g.targets.length == 1 && g.parameters == none
  else false) &&
  g.targets.all (fun q => q < num_qubits) &&
  (g.controls.getD []).all (fun q => q < num_qubits)

/-! ## Claim-side reference definitions -/

/-- The pair-removal rule exactly as claim C1 words it: same name, that
name (as written) in the self-inverse set, one target and no controls on
each, same target qubit, no parameters on either. -/
def claimPairRemovalCond (g1 g2 : GateModel) : Bool :=
  g1.name == g2.name &&
  SELF_INVERSE_SINGLE_QUBIT_GATES.contains g1.name &&
  g1.targets.length == 1 && !optListTruthy g1.controls &&
  g2.targets.length == 1 && !optListTruthy g2.controls &&
  g1.targets == g2.targets &&
  !optListTruthy g1.parameters && !optListTruthy g2.parameters

/-- The amended C1 pair-removal rule: as the claim words it, except that
membership in the self-inverse set is tested on the lowercased name (the
name equality between the two gates stays case-sensitive). -/
def claimPairRemovalCondAmended (g1 g2 : GateModel) : Bool :=
  g1.name == g2.name &&
  SELF_INVERSE_SINGLE_QUBIT_GATES.contains (pyLower g1.name) &&
  g1.targets.length == 1 && !optListTruthy g1.controls &&
  g2.targets.length == 1 && !optListTruthy g2.controls &&
  g1.targets == g2.targets &&
  !optListTruthy g1.parameters && !optListTruthy g2.parameters

/-- The header lines of an exported QASM text, as claim C4 words them. -/
def qasmHeaderLines (c : CircuitJSON) : List String :=
  ["OPENQASM 2.0;", "include \"qelib1.inc\";"] ++
    (if c.num_qubits > 0 then ["qreg q[" ++ toString c.num_qubits ++ "];"] else [])

/-- The name-plus-parameters part of an exported gate line (everything
before the space and the qubit-reference list). -/
def qasmNamePart (g : GateModel) : String :=
  g.name ++
    (if optListTruthy g.parameters then
      "(" ++ String.intercalate "," ((g.parameters.getD []).map paramStr) ++ ")"
    else "")

/-- The data-model invariant claim C6 states for a GateApplication inside a
circuit with `num_qubits` qubits: non-empty targets, all indices in range,
and disjoint targets/controls. -/
def gateInvariant (num_qubits : Nat) (g : GateModel) : Prop :=
  g.targets ≠ [] ∧
  (∀ i ∈ g.targets, i < num_qubits) ∧
  (∀ i ∈ g.controls.getD [], i < num_qubits) ∧
  (∀ i ∈ g.targets, i ∉ g.controls.getD [])

instance (num_qubits : Nat) (g : GateModel) : Decidable (gateInvariant num_qubits g) := by
  unfold gateInvariant
  infer_instance

/-! ## Concrete circuits used by the individual claims -/

/-- A lowercase parameterless H on qubit 0. -/
def gateHlc : GateModel := { name := "h", targets := [0], controls := none, parameters := none }

/-- A lowercase parameterless X on qubit 0. -/
def gateXlc : GateModel := { name := "x", targets := [0], controls := none, parameters := none }

/-- An uppercase-named H gate on qubit 0. -/
def gateHuc : GateModel := { name := "H", targets := [0], controls := none, parameters := none }

/-- The circuit `[H(0), H(0), X(0)]` of claim C1's concrete example. -/
def circuitHHX : CircuitJSON :=
  { num_qubits := 1, gates := [gateHlc, gateHlc, gateXlc],
    metadata := none, gate_counts := none, depth := none }

/-- Two adjacent gates named `"H"` (uppercase) on the same qubit. -/
def circuitHHupper : CircuitJSON :=
  { num_qubits := 1, gates := [gateHuc, gateHuc],
    metadata := none, gate_counts := none, depth := none }

/-- Four adjacent identical lowercase H gates on qubit 0 (claim C8). -/
def circuitHHHH : CircuitJSON :=
  { num_qubits := 1, gates := [gateHlc, gateHlc, gateHlc, gateHlc],
    metadata := none, gate_counts := none, depth := none }

/-- The sequence `[H, X, X, H]` on qubit 0: the pass removes the X pair and
leaves the freshly adjacent H pair. -/
def circuitHXXH : CircuitJSON :=
  { num_qubits := 1, gates := [gateHlc, gateXlc, gateXlc, gateHlc],
    metadata := none, gate_counts := none, depth := none }

/-- A gate violating the C6 invariant: its target and control index
coincide and both lie outside the 1-qubit register. -/
def invariantViolatingGate : GateModel :=
  { name := "h", targets := [5], controls := some [5], parameters := none }

/-- A circuit carrying `invariantViolatingGate`, with statistics present. -/
def invariantViolatingCircuit : CircuitJSON :=
  { num_qubits := 1, gates := [invariantViolatingGate],
    metadata := none, gate_counts := some [("h", 1)], depth := some 1 }

/-- A gate with an empty target list (also violating the C6 invariant). -/
def emptyTargetsGate : GateModel :=
  { name := "x", targets := [], controls := none, parameters := none }

/-- A circuit whose statistics are present (for the C7 unchanged case). -/
def statsPresentCircuit : CircuitJSON :=
  { num_qubits := 1, gates := [gateHlc],
    metadata := none, gate_counts := some [("h", 1)], depth := some 1 }

/-- A circuit with absent statistics whose single gate uses the alias name
`cnot` (renamed to `cx` by the qiskit round trip of `/circuit/optimize`). -/
def staleCnotCircuit : CircuitJSON :=
  { num_qubits := 2,
    gates := [{ name := "cnot", targets := [1], controls := some [0], parameters := none }],
    metadata := none, gate_counts := none, depth := none }

/-- Toffoli with the canonical split: controls `[0,1]`, target `[2]`. -/
def ccxSplitA : CircuitJSON :=
  { num_qubits := 3,
    gates := [{ name := "ccx", targets := [2], controls := some [0, 1], parameters := none }],
    metadata := none, gate_counts := none, depth := none }

/-- Toffoli with a non-canonical split: control `[0]`, targets `[1,2]` —
exported text is identical to `ccxSplitA`. -/
def ccxSplitB : CircuitJSON :=
  { num_qubits := 3,
    gates := [{ name := "ccx", targets := [1, 2], controls := some [0], parameters := none }],
    metadata := none, gate_counts := none, depth := none }

/-- A controlled-H circuit: `ch` is in the text dialect, but the importer
never re-splits its controls. -/
def chCircuit : CircuitJSON :=
  { num_qubits := 2,
    gates := [{ name := "ch", targets := [1], controls := some [0], parameters := none }],
    metadata := none, gate_counts := none, depth := none }

/-- The instruction list the modeled parser produces for `chCircuit`. -/
def chParsedCircuit : QiskitCircuit :=
  { num_qubits := 2
    name := "circuit"
    data := [{ name := "ch", qubits := [0, 1], params := [], num_ctrl_qubits := some 1 }]
    depth := some 1 }

/-- A safe round-trip circuit: H, CNOT with canonical split, and an RX. -/
def safeBellCircuit : CircuitJSON :=
  { num_qubits := 2,
    gates := [{ name := "h", targets := [0], controls := none, parameters := none },
              { name := "cx", targets := [1], controls := some [0], parameters := none },
              { name := "rx", targets := [0], controls := none, parameters := some [.num 1] }],
    metadata := none, gate_counts := none, depth := none }

/-- A one-qubit circuit with no gates (claim C9's counterexample input). -/
def oneQubitEmptyCircuit : CircuitJSON :=
  { num_qubits := 1, gates := [], metadata := none, gate_counts := none, depth := none }

/-- The zero-qubit circuit. -/
def zeroQubitCircuit : CircuitJSON :=
  { num_qubits := 0, gates := [], metadata := none, gate_counts := none, depth := none }

/-- An empty qiskit circuit (used to witness that a version-accepted input
proceeds to the parser). -/
def emptyQiskitCircuit : QiskitCircuit :=
  { num_qubits := 1, name := "circuit-0", data := [], depth := some 0 }

/-- A qiskit circuit with one `cx` instruction (witness input for C10). -/
def qiskitCxCircuit : QiskitCircuit :=
  { num_qubits := 2, name := "qc",
    data := [{ name := "cx", qubits := [0, 1], params := [], num_ctrl_qubits := some 1 }],
    depth := some 1 }

/-- A cirq circuit with a doubly-controlled X wrapper on qubits 5,7 → 1
(witness input for C5 and C10). -/
def cirqControlledCircuit : CirqCircuit :=
  { moments := [[{ gate := .controlled (.xpow 1) [5, 7], qubits := [5, 7, 1] }]] }

/-! ## Theorems -/

/-- The index-based loop agrees with the structural scan: from position `i`
it scans the suffix `gates.drop i`. -/
theorem removeLoopIndexed_eq_scan (gates : List GateModel) (i : Nat) :
    removeLoopIndexed gates i = selfInverseScan selfInversePairCond (gates.drop i) := by
  by_cases h : i < gates.length
  · have hdrop : gates.drop i = gates.get ⟨i, h⟩ :: gates.drop (i + 1) :=
      List.drop_eq_getElem_cons h
    by_cases h2 : i + 1 < gates.length
    · have hdrop2 : gates.drop (i + 1) = gates.get ⟨i + 1, h2⟩ :: gates.drop (i + 2) :=
        List.drop_eq_getElem_cons h2
      rw [removeLoopIndexed]
      simp only [h, dif_pos, h2]
      by_cases hp : selfInversePairCond (gates.get ⟨i, h⟩) (gates.get ⟨i + 1, h2⟩)
      · rw [if_pos hp, removeLoopIndexed_eq_scan gates (i + 2), hdrop, hdrop2,
          selfInverseScan, if_pos hp]
      · rw [if_neg hp, removeLoopIndexed_eq_scan gates (i + 1), hdrop, hdrop2,
          selfInverseScan, if_neg hp]
    · have hlen : i + 1 = gates.length := by omega
      have hdrop2 : gates.drop (i + 1) = [] := List.drop_eq_nil_of_le (le_of_eq hlen.symm)
      rw [removeLoopIndexed]
      simp only [h, dif_pos, h2, dif_neg, not_false_iff]
      rw [removeLoopIndexed_eq_scan gates (i + 1), hdrop, hdrop2]
      rfl
  · have hdrop : gates.drop i = [] := List.drop_eq_nil_of_le (by omega)
    rw [removeLoopIndexed]
    simp only [h, dif_neg, not_false_iff]
    rw [hdrop]
    rfl
termination_by gates.length - i

/-- The source's pair condition and the amended claim's rule are the same
test (they differ only in conjunct order). -/
theorem selfInversePairCond_eq_amended :
    selfInversePairCond = claimPairRemovalCondAmended := by
  funext g1 g2
  unfold selfInversePairCond claimPairRemovalCondAmended
  cases SELF_INVERSE_SINGLE_QUBIT_GATES.contains (pyLower g1.name) <;>
    cases g1.name == g2.name <;> simp [Bool.and_assoc]

/-- C1 (amended): the self-inverse cancellation pass returns a new circuit
whose gate sequence is the single left-to-right scan that removes an
adjacent pair exactly when both gates have the same (case-sensitive) name,
the lowercased name is in the set (h | x | y | z), both have exactly one
target and no controls, both act on the same qubit, and neither carries
parameters, resuming after a removal at position i+2; the returned
circuit's `gate_counts` and `depth` are both `None`.  In particular,
`[H(0), H(0), X(0)]` yields `[X(0)]` with both statistics `None`. -/
theorem C1_self_inverse_pass :
    (∀ c : CircuitJSON,
        remove_self_inverse_pairs c =
          { num_qubits := c.num_qubits
            gates := selfInverseScan claimPairRemovalCondAmended c.gates
            metadata := c.metadata
            gate_counts := none
            depth := none }) ∧
    remove_self_inverse_pairs circuitHHX =
      { num_qubits := 1, gates := [gateXlc], metadata := none,
        gate_counts := none, depth := none } := by
  constructor
  · intro c
    unfold remove_self_inverse_pairs
    rw [selfInversePairCond_eq_amended]
  · decide

/-- C1 counterexample: the pass removes an adjacent pair of gates named
`"H"` even though `"H"` is not in the claim's set `(h | x | y | z)` — the
set-membership test in the source is on the lowercased name, so removal
does not happen "exactly when ... that name is in the set" as claimed (the
claim's own rule would keep both gates). -/
theorem C1_counterexample :
    (remove_self_inverse_pairs circuitHHupper).gates = [] ∧
    SELF_INVERSE_SINGLE_QUBIT_GATES.contains "H" = false ∧
    selfInverseScan claimPairRemovalCond circuitHHupper.gates = [gateHuc, gateHuc] := by
  decide

/-- C8 counterexample: on four adjacent identical H gates the pass returns
the empty gate sequence — it does not "still contain the last two H gates":
after removing the pair at positions 0–1 the scan resumes at position 2,
where gates 2 and 3 are themselves an adjacent removable pair. -/
theorem C8_counterexample :
    (remove_self_inverse_pairs circuitHHHH).gates = [] ∧
    gateHlc ∉ (remove_self_inverse_pairs circuitHHHH).gates := by
  decide

/-- C8 (amended): on `[H,H,H,H]` the single pass removes both disjoint
adjacent pairs, converging to the empty sequence; the index-skip semantics
(no re-examination of freshly adjacent pairs) shows instead on
`[H,X,X,H]`, which the pass leaves as `[H,H]`. -/
theorem C8_index_skip_semantics :
    (remove_self_inverse_pairs circuitHHHH).gates = [] ∧
    (remove_self_inverse_pairs circuitHXXH).gates = [gateHlc, gateHlc] := by
  decide

/-- C4: the exporter emits one line per gate in sequence order, and every
gate's line is its name-and-parameters part, a space, the comma-joined
qubit-reference list with all controls (in order) before all targets (in
order), and a terminating semicolon — for every gate, however its fields
are populated. -/
theorem C4_export_control_ordering :
    (∀ c : CircuitJSON,
        export_circuit_to_qasm c =
          String.intercalate "\n" (qasmHeaderLines c ++ c.gates.map qasmGateLine)) ∧
    (∀ g : GateModel,
        qasmGateLine g =
          qasmNamePart g ++ " " ++
            String.intercalate "," ((g.controls.getD [] ++ g.targets).map qasmQubitRef) ++
            ";") := by
  constructor
  · intro c
    unfold export_circuit_to_qasm qasmHeaderLines
    by_cases h : c.num_qubits > 0 <;> simp [h]
  · intro g
    unfold qasmGateLine qasmNamePart
    match hc : g.controls with
    | none =>
      simp only [optListTruthy, hc, Option.getD]
      split <;> simp [String.append_assoc, String.append_empty]
    | some [] =>
      simp only [optListTruthy, hc, Option.getD, List.isEmpty, Bool.not_false,
        List.map_nil, List.nil_append, if_true]
      split <;> simp [String.append_assoc, String.append_empty]
    | some (a :: as) =>
      simp only [optListTruthy, hc, Option.getD, List.isEmpty, Bool.not_true,
        List.map_append, if_false, List.map_cons, List.cons_append]
      split <;> simp [String.append_assoc, String.append_empty]

/-- C6 counterexample: a GateApplication whose single index is both a
control and a target and lies outside the register violates the claimed
invariant, yet the system accepts it — the optimize endpoint returns the
enclosing circuit unchanged (no error response exists on this path) and
the exporter happily renders the gate. -/
theorem C6_counterexample :
    ¬ gateInvariant invariantViolatingCircuit.num_qubits invariantViolatingGate ∧
    optimize_circuit { circuit := invariantViolatingCircuit, passes := [] } =
      invariantViolatingCircuit ∧
    export_circuit_to_qasm invariantViolatingCircuit =
      "OPENQASM 2.0;\ninclude \"qelib1.inc\";\nqreg q[1];\nh q[5],q[5];" := by
  decide

/-- C6 (amended): the data model validates only shape, not the stated
invariant — GateApplications with out-of-range indices, overlapping
targets/controls, or empty targets are representable, violate the
invariant, and are processed without rejection (the rewrite pass passes
the violating gate through and the exporter renders a line for it, and for
an empty-target gate as well). -/
theorem C6_invariant_not_enforced :
    ¬ gateInvariant 1 invariantViolatingGate ∧
    (remove_self_inverse_pairs invariantViolatingCircuit).gates =
      [invariantViolatingGate] ∧
    qasmGateLine invariantViolatingGate = "h q[5],q[5];" ∧
    ¬ gateInvariant 1 emptyTargetsGate ∧
    qasmGateLine emptyTargetsGate = "x ;" := by
  decide

/-- Folding the requested passes is the identity when every requested name
is absent from the registry. -/
theorem passFold_id (passes : List String)
    (h : ∀ p ∈ passes, (OPTIMIZATION_PASS_REGISTRY.lookup p).isNone = true) :
    ∀ c : CircuitJSON,
      passes.foldl
        (fun current pass_name =>
          match OPTIMIZATION_PASS_REGISTRY.lookup pass_name with
          | some optimizer_func => optimizer_func current
          | none => current)
        c = c := by
  induction passes with
  | nil => intro c; rfl
  | cons p rest ih =>
    intro c
    have hp := h p (List.mem_cons_self p rest)
    have hrest : ∀ q ∈ rest, (OPTIMIZATION_PASS_REGISTRY.lookup q).isNone = true :=
      fun q hq => h q (List.mem_cons_of_mem p hq)
    have hnone : OPTIMIZATION_PASS_REGISTRY.lookup p = none := by
      cases hl : OPTIMIZATION_PASS_REGISTRY.lookup p with
      | none => rfl
      | some f => rw [hl] at hp; simp [Option.isNone] at hp
    simp only [List.foldl_cons, hnone]
    exact ih hrest c

/-- C7 (amended): requesting only pass names absent from the registry never
errors and leaves the circuit unchanged through the pass stage; when the
input circuit's `gate_counts` and `depth` are both present the endpoint
returns the input circuit itself, element-for-element.  (When either
statistic is absent the endpoint additionally recomputes statistics by
round-tripping through the qiskit representation, which can alter the gate
sequence — see the counterexample.) -/
theorem C7_unknown_pass_noop (req : OptimizationRequest)
    (hunknown : ∀ p ∈ req.passes, (OPTIMIZATION_PASS_REGISTRY.lookup p).isNone = true)
    (hgc : req.circuit.gate_counts ≠ none) (hd : req.circuit.depth ≠ none) :
    optimize_circuit req = req.circuit := by
  unfold optimize_circuit
  rw [passFold_id req.passes hunknown req.circuit]
  cases hg : req.circuit.gate_counts with
  | none => exact absurd hg hgc
  | some gc =>
    cases hdep : req.circuit.depth with
    | none => exact absurd hdep hd
    | some d => simp [hg, hdep]

/-- C7 witness: a concrete unknown-pass request on a circuit with both
statistics present returns the circuit unchanged. -/
theorem C7_witness :
    optimize_circuit { circuit := statsPresentCircuit, passes := ["non_existent_pass"] } =
      statsPresentCircuit :=
  C7_unknown_pass_noop
    { circuit := statsPresentCircuit, passes := ["non_existent_pass"] }
    (by decide) (by decide) (by decide)

/-- C7 counterexample: with `gate_counts`/`depth` absent, a request naming
only an unknown pass still changes the gate sequence — the statistics
recomputation round-trips through qiskit, renaming the alias `cnot` to
`cx` — so the endpoint does not return "the input circuit's gate sequence
unchanged, element-for-element" for every input circuit. -/
theorem C7_counterexample :
    (OPTIMIZATION_PASS_REGISTRY.lookup "non_existent_pass").isNone = true ∧
    (optimize_circuit { circuit := staleCnotCircuit, passes := ["non_existent_pass"] }).gates ≠
      staleCnotCircuit.gates := by
  decide

/-- C3: an input whose stripped, lowercased text does not start with the
supported dialect header `openqasm 2.0;` is rejected with a 400
client-error response carrying the fixed detail message (no circuit is
produced); an input passing the version gate proceeds to the external
parser, whose outcome alone determines the response. -/
theorem C3_version_gate :
    (∀ (loads : String → Option QiskitCircuit) (qasm_string : String),
        qasmVersionOk qasm_string = false →
        parse_qasm_to_json loads qasm_string = .httpError 400 versionGateDetail) ∧
    (∀ (loads : String → Option QiskitCircuit) (qasm_string : String) (qc : QiskitCircuit),
        qasmVersionOk qasm_string = true → loads qasm_string = some qc →
        parse_qasm_to_json loads qasm_string = .ok (qiskit_circuit_to_json qc)) ∧
    (∀ (loads : String → Option QiskitCircuit) (qasm_string : String),
        qasmVersionOk qasm_string = true → loads qasm_string = none →
        parse_qasm_to_json loads qasm_string = .httpError 400 "Qiskit QASM Parsing Error") := by
  refine ⟨fun loads s h => ?_, fun loads s qc h hl => ?_, fun loads s h hl => ?_⟩
  · unfold parse_qasm_to_json
    simp [h]
  · unfold parse_qasm_to_json
    simp [h, hl]
  · unfold parse_qasm_to_json
    simp [h, hl]

/-- C3 witness: a concrete OpenQASM 3.0 input is rejected with the 400
response, and a concrete OpenQASM 2.0 input reaches the parser and returns
the converted circuit. -/
theorem C3_witness :
    parse_qasm_to_json (fun _ => none) "OPENQASM 3.0; qubit q; h q;" =
      .httpError 400 versionGateDetail ∧
    parse_qasm_to_json (fun _ => some emptyQiskitCircuit)
        "OPENQASM 2.0; include \"qelib1.inc\"; qreg q[1]; h q[0];" =
      .ok (qiskit_circuit_to_json emptyQiskitCircuit) :=
  ⟨C3_version_gate.1 (fun _ => none) "OPENQASM 3.0; qubit q; h q;" (by decide),
   C3_version_gate.2.1 (fun _ => some emptyQiskitCircuit)
     "OPENQASM 2.0; include \"qelib1.inc\"; qreg q[1]; h q[0];" emptyQiskitCircuit
     (by decide) rfl⟩

/-- C9 counterexample: the script generated for a 1-qubit circuit does not
end with the fixed measurement/return statement — two comment lines follow
it — and the zero-qubit script ends with a different return statement
(`qml.state()` rather than the fixed `qml.expval` measurement), so the
scripts do not "end with one fixed measurement/return statement". -/
theorem C9_counterexample :
    pyEndsWith (circuit_json_to_pennylane_script oneQubitEmptyCircuit "default.qubit")
      pennylaneReturnLine = false ∧
    pyEndsWith (circuit_json_to_pennylane_script oneQubitEmptyCircuit "default.qubit")
      "# print(circuit())" = true ∧
    pyEndsWith (circuit_json_to_pennylane_script zeroQubitCircuit "default.qubit")
      "    return qml.state()" = true ∧
    pyEndsWith (circuit_json_to_pennylane_script zeroQubitCircuit "default.qubit")
      pennylaneReturnLine = false := by
  decide

/-- C9 (amended): for circuits with at least one qubit, the fixed
measurement/return statement is appended immediately after all gate
statements — it is the final statement of the generated program — and the
script then closes with two fixed comment elements; for the zero-qubit
circuit the script instead ends with the fixed trivial body and a
`qml.state()` return. -/
theorem C9_script_tail (c : CircuitJSON) (device_name : String) :
    (0 < c.num_qubits →
        circuit_json_to_pennylane_script c device_name =
          String.intercalate "\n"
            (pennylaneHeader c.num_qubits device_name ++
              c.gates.map pennylaneGateLine ++
              [pennylaneReturnLine, pennylaneTrailingComment1, pennylaneTrailingComment2])) ∧
    (c.num_qubits = 0 →
        circuit_json_to_pennylane_script c device_name =
          String.intercalate "\n"
            (pennylaneHeader c.num_qubits device_name ++
              ["    pass # No qubits in circuit", "    return qml.state()"])) := by
  constructor
  · intro h
    unfold circuit_json_to_pennylane_script
    have hne : (c.num_qubits == 0) = false := by
      cases hq : c.num_qubits with
      | zero => omega
      | succ n => rfl
    simp [hne]
  · intro h
    unfold circuit_json_to_pennylane_script
    simp [h]

/-- C9 witness: the tail shape evaluated on a concrete 1-qubit circuit and
on the zero-qubit circuit. -/
theorem C9_witness :
    circuit_json_to_pennylane_script oneQubitEmptyCircuit "default.qubit" =
      String.intercalate "\n"
        (pennylaneHeader 1 "default.qubit" ++
          [pennylaneReturnLine, pennylaneTrailingComment1, pennylaneTrailingComment2]) ∧
    circuit_json_to_pennylane_script zeroQubitCircuit "default.qubit" =
      String.intercalate "\n"
        (pennylaneHeader 0 "default.qubit" ++
          ["    pass # No qubits in circuit", "    return qml.state()"]) :=
  ⟨(C9_script_tail oneQubitEmptyCircuit "default.qubit").1 (by decide),
   (C9_script_tail zeroQubitCircuit "default.qubit").2 rfl⟩

/-- A truthiness-guarded optional list is never the empty-list `some`. -/
theorem truthyOpt_ne_some_nil {α : Type} (l : List α) :
    (if listTruthy l then some l else none) ≠ some ([] : List α) := by
  cases l <;> simp [listTruthy]

/-- The qiskit importer's control split is `none` or a non-empty prefix of
the instruction's qubit list. -/
theorem qiskitControlSplit_ne_some_nil (inst : QiskitInstruction) :
    (qiskitGateToModel.qiskitControlSplit inst).1 ≠ some [] := by
  unfold qiskitGateToModel.qiskitControlSplit
  simp only
  split
  · split
    · rename_i hcond
      simp only [Bool.and_eq_true, decide_eq_true_eq] at hcond
      intro hsome
      simp only [Option.some.injEq] at hsome
      rcases List.take_eq_nil_iff.mp hsome with h0 | hnil
      · omega
      · rw [hnil] at hcond
        simp only [List.length_nil] at hcond
        omega
    · simp
  · simp

/-- C10: both object-graph importers only ever emit `controls` and
`parameters` fields that are `None` or non-empty — an empty list is never
produced for either optional field. -/
theorem C10_no_empty_optional_lists :
    (∀ qc : QiskitCircuit, ∀ g ∈ (qiskit_circuit_to_json qc).gates,
        g.controls ≠ some [] ∧ g.parameters ≠ some []) ∧
    (∀ (cc : CirqCircuit) (name : Option String), ∀ g ∈ (cirq_circuit_to_json cc name).gates,
        g.controls ≠ some [] ∧ g.parameters ≠ some []) := by
  constructor
  · intro qc g hg
    unfold qiskit_circuit_to_json at hg
    simp only [List.mem_map] at hg
    obtain ⟨inst, _, rfl⟩ := hg
    exact ⟨qiskitControlSplit_ne_some_nil inst, truthyOpt_ne_some_nil inst.params⟩
  · intro cc name g hg
    unfold cirq_circuit_to_json at hg
    simp only [List.mem_map] at hg
    obtain ⟨op, _, rfl⟩ := hg
    unfold cirqOpToGateModel
    exact ⟨truthyOpt_ne_some_nil _, truthyOpt_ne_some_nil _⟩

/-- C10 witness: the property evaluated on a concrete qiskit circuit (one
`cx` instruction → controls `[0]`, no parameters) and a concrete cirq
circuit (a two-control wrapper → controls non-empty). -/
theorem C10_witness :
    ((qiskit_circuit_to_json qiskitCxCircuit).gates.all
        (fun g => !(g.controls == some []) && !(g.parameters == some []))) = true ∧
    (∀ g ∈ (qiskit_circuit_to_json qiskitCxCircuit).gates,
        g.controls ≠ some [] ∧ g.parameters ≠ some []) ∧
    (∀ g ∈ (cirq_circuit_to_json cirqControlledCircuit (some "w")).gates,
        g.controls ≠ some [] ∧ g.parameters ≠ some []) :=
  ⟨by decide,
   fun g hg => C10_no_empty_optional_lists.1 qiskitCxCircuit g hg,
   fun g hg => C10_no_empty_optional_lists.2 cirqControlledCircuit (some "w") g hg⟩

/-- C5: the cirq importer maps every operation of every moment through the
per-operation conversion; a `ControlledGate` wrapper's canonical name is
synthesized recursively — the sub-gate's recognized name prefixed with `c`
for a single control and `c<n>_` for n controls — and the produced
GateModel records exactly the wrapper's declared control qubits (in order,
mapped to circuit indices), in multi-control cases as well as the
single-control one. -/
theorem C5_cirq_controlled_unwrap :
    (∀ (cc : CirqCircuit) (name : Option String),
        (cirq_circuit_to_json cc name).gates =
          (cc.moments.flatMap id).map
            (cirqOpToGateModel (fun q => idxOf? (cirqAllQubits cc) q))) ∧
    (∀ (sub_gate : CirqGate) (control_qubits : List Nat),
        _get_cirq_gate_name (.controlled sub_gate control_qubits) =
          if control_qubits.length = 1 then "c" ++ _get_cirq_gate_name sub_gate
          else "c" ++ toString control_qubits.length ++ "_" ++ _get_cirq_gate_name sub_gate) ∧
    (∀ (qmap : Nat → Option Nat) (sub_gate : CirqGate) (control_qubits qs : List Nat),
        control_qubits.filterMap qmap ≠ [] →
        (cirqOpToGateModel qmap ⟨.controlled sub_gate control_qubits, qs⟩).controls =
          some (control_qubits.filterMap qmap) ∧
        (cirqOpToGateModel qmap ⟨.controlled sub_gate control_qubits, qs⟩).name =
          pyLower (_get_cirq_gate_name (.controlled sub_gate control_qubits))) := by
  refine ⟨fun cc name => rfl, fun sub_gate control_qubits => ?_, ?_⟩
  · simp only [_get_cirq_gate_name]
    by_cases h : control_qubits.length = 1
    · simp [h]
    · have hb : (control_qubits.length == 1) = false := by simpa using h
      simp [h, hb]
  · intro qmap sub_gate control_qubits qs hne
    unfold cirqOpToGateModel
    cases hfm : control_qubits.filterMap qmap with
    | nil => exact absurd hfm hne
    | cons a t =>
      refine ⟨?_, rfl⟩
      simp only [hfm, listTruthy, List.isEmpty, Bool.not_false, if_true]

/-- C5 witness: a two-control wrapper around X on line qubits 5 and 7 with
target 1 — name `c2_x`, controls recorded as the wrapper declares them
(indices 1 and 2 in the sorted qubit universe). -/
theorem C5_witness :
    (cirq_circuit_to_json cirqControlledCircuit (some "Converted Cirq Circuit")).gates =
      (cirqControlledCircuit.moments.flatMap id).map
        (cirqOpToGateModel (fun q => idxOf? (cirqAllQubits cirqControlledCircuit) q)) ∧
    _get_cirq_gate_name (.controlled (.xpow 1) [5, 7]) = "c2_x" ∧
    (cirqOpToGateModel (fun q => idxOf? [1, 5, 7] q)
        ⟨.controlled (.xpow 1) [5, 7], [5, 7, 1]⟩).controls = some [1, 2] ∧
    (cirqOpToGateModel (fun q => idxOf? [1, 5, 7] q)
        ⟨.controlled (.xpow 1) [5, 7], [5, 7, 1]⟩).name = "c2_x" := by
  have h1 := C5_cirq_controlled_unwrap.1 cirqControlledCircuit (some "Converted Cirq Circuit")
  have h2 := C5_cirq_controlled_unwrap.2.1 (.xpow 1) [5, 7]
  have h3 := C5_cirq_controlled_unwrap.2.2 (fun q => idxOf? [1, 5, 7] q)
    (.xpow 1) [5, 7] [5, 7, 1] (by decide)
  exact ⟨h1, by rw [h2]; decide, h3.1.trans (by decide), h3.2.trans (by decide)⟩

/-- Each safe gate's exported line parses as a standard-library
instruction, and converting that instruction back through the qiskit
importer reproduces the gate exactly. -/
theorem safeGate_roundtrip (nq : Nat) (g : GateModel)
    (h : textRoundTripSafeGate nq g = true) :
    qasmLineParses nq g = true ∧ qiskitGateToModel (qelib1Instruction g) = g := by
  obtain ⟨gname, gtargets, gcontrols, gparams⟩ := g
  unfold textRoundTripSafeGate at h
  simp only [Bool.and_eq_true] at h
  obtain ⟨⟨hshape, htAll⟩, hcAll⟩ := h
  split at hshape
  · -- uncontrolled parameterless one-qubit names
    rename_i hc
    simp only [Bool.and_eq_true, beq_iff_eq] at hshape
    obtain ⟨⟨hlen, hcnone⟩, hpnone⟩ := hshape
    subst hcnone; subst hpnone
    obtain ⟨b, rfl⟩ := List.length_eq_one.mp hlen
    simp only [List.all_cons, List.all_nil, Bool.and_true, decide_eq_true_eq] at htAll
    have hmem := List.mem_of_elem_eq_true hc
    simp only [List.mem_cons, List.not_mem_nil, or_false] at hmem
    rcases hmem with rfl | rfl | rfl | rfl | rfl | rfl | rfl | rfl | rfl <;>
      exact ⟨by simp [qasmLineParses, QELIB1_GATES, List.lookup, optListTruthy, htAll], rfl⟩
  · split at hshape
    · -- rotations with one numeric parameter
      rename_i hc
      simp only [Bool.and_eq_true, beq_iff_eq] at hshape
      obtain ⟨⟨hlen, hcnone⟩, hpar⟩ := hshape
      subst hcnone
      obtain ⟨b, rfl⟩ := List.length_eq_one.mp hlen
      simp only [List.all_cons, List.all_nil, Bool.and_true, decide_eq_true_eq] at htAll
      rcases gparams with _ | pl
      · simp at hpar
      · rcases pl with _ | ⟨p, rest⟩
        · simp at hpar
        · rcases p with x | s
          · rcases rest with _ | ⟨q, rest2⟩
            · have hmem := List.mem_of_elem_eq_true hc
              simp only [List.mem_cons, List.not_mem_nil, or_false] at hmem
              rcases hmem with rfl | rfl | rfl <;>
                exact ⟨by simp [qasmLineParses, QELIB1_GATES, List.lookup, optListTruthy,
                  htAll], rfl⟩
            · simp at hpar
          · simp at hpar
    · split at hshape
      · -- swap
        rename_i hname
        simp only [Bool.and_eq_true, beq_iff_eq] at hshape
        obtain ⟨⟨hlen, hcnone⟩, hpnone⟩ := hshape
        subst hcnone; subst hpnone
        have hname2 : gname = "swap" := by simpa using hname
        subst hname2
        obtain ⟨a, b, rfl⟩ := List.length_eq_two.mp hlen
        simp only [List.all_cons, List.all_nil, Bool.and_true, Bool.and_eq_true,
          decide_eq_true_eq] at htAll
        exact ⟨by simp [qasmLineParses, QELIB1_GATES, List.lookup, optListTruthy,
          htAll.1, htAll.2], rfl⟩
      · split at hshape
        · -- cx / cz with one declared control
          rename_i hc
          simp only [Bool.and_eq_true, beq_iff_eq] at hshape
          obtain ⟨⟨hctrl, hlen⟩, hpnone⟩ := hshape
          subst hpnone
          obtain ⟨b, rfl⟩ := List.length_eq_one.mp hlen
          rcases gcontrols with _ | cl
          · simp at hctrl
          · rcases cl with _ | ⟨a, rest⟩
            · simp at hctrl
            · rcases rest with _ | ⟨a2, rest2⟩
              · simp only [List.all_cons, List.all_nil, Bool.and_true,
                  decide_eq_true_eq] at htAll
                simp only [Option.getD_some, List.all_cons, List.all_nil, Bool.and_true,
                  decide_eq_true_eq] at hcAll
                have hmem := List.mem_of_elem_eq_true hc
                simp only [List.mem_cons, List.not_mem_nil, or_false] at hmem
                rcases hmem with rfl | rfl <;>
                  exact ⟨by simp [qasmLineParses, QELIB1_GATES, List.lookup, optListTruthy,
                    htAll, hcAll], rfl⟩
              · simp at hctrl
        · split at hshape
          · -- ccx with two declared controls
            rename_i hname
            simp only [Bool.and_eq_true, beq_iff_eq] at hshape
            obtain ⟨⟨hctrl, hlen⟩, hpnone⟩ := hshape
            subst hpnone
            have hname2 : gname = "ccx" := by simpa using hname
            subst hname2
            obtain ⟨b, rfl⟩ := List.length_eq_one.mp hlen
            rcases gcontrols with _ | cl
            · simp at hctrl
            · rcases cl with _ | ⟨a, rest⟩
              · simp at hctrl
              · rcases rest with _ | ⟨a2, rest2⟩
                · simp at hctrl
                · rcases rest2 with _ | ⟨a3, rest3⟩
                  · simp only [List.all_cons, List.all_nil, Bool.and_true,
                      decide_eq_true_eq] at htAll
                    simp only [Option.getD_some, List.all_cons, List.all_nil, Bool.and_true,
                      Bool.and_eq_true, decide_eq_true_eq] at hcAll
                    exact ⟨by simp [qasmLineParses, QELIB1_GATES, List.lookup, optListTruthy,
                      htAll, hcAll.1, hcAll.2], rfl⟩
                  · simp at hctrl
          · simp at hshape

/-- C2 (amended): for every circuit with a declared register whose gates
all use lowercase dialect names with their canonical control/target split
(the safe shapes of `textRoundTripSafeGate`), importing the exported text
— external parsing modeled at the instruction level by
`qasm2_loads_of_export` — yields a circuit with the same qubit count and
the very same gate sequence, hence equal up to gate order and numeric
parameter precision.  (Gates whose controls the importer does not re-split,
such as `ch`, and non-canonical splits are excluded: see the
counterexample.) -/
theorem C2_round_trip (c : CircuitJSON) (hnq : 0 < c.num_qubits)
    (hsafe : ∀ g ∈ c.gates, textRoundTripSafeGate c.num_qubits g = true) :
    ∃ qc : QiskitCircuit, qasm2_loads_of_export c = some qc ∧
      (qiskit_circuit_to_json qc).num_qubits = c.num_qubits ∧
      (qiskit_circuit_to_json qc).gates = c.gates ∧
      circuitEquivUpToOrder (qiskit_circuit_to_json qc) c := by
  have hparse : c.gates.all (qasmLineParses c.num_qubits) = true := by
    rw [List.all_eq_true]
    intro g hg
    exact (safeGate_roundtrip c.num_qubits g (hsafe g hg)).1
  have hgates :
      (qiskit_circuit_to_json
        { num_qubits := c.num_qubits, name := "circuit",
          data := c.gates.map qelib1Instruction,
          depth := some (qiskitDepth (c.gates.map qelib1Instruction)) }).gates = c.gates := by
    show (c.gates.map qelib1Instruction).map qiskitGateToModel = c.gates
    rw [List.map_map]
    have hid : ∀ g ∈ c.gates, (qiskitGateToModel ∘ qelib1Instruction) g = id g :=
      fun g hg => (safeGate_roundtrip c.num_qubits g (hsafe g hg)).2
    rw [List.map_congr_left hid, List.map_id]
  refine ⟨{ num_qubits := c.num_qubits, name := "circuit",
            data := c.gates.map qelib1Instruction,
            depth := some (qiskitDepth (c.gates.map qelib1Instruction)) },
    ?_, rfl, hgates, rfl, by rw [hgates]⟩
  unfold qasm2_loads_of_export
  have hcond : (c.num_qubits > 0 && c.gates.all (qasmLineParses c.num_qubits)) = true := by
    rw [Bool.and_eq_true]
    exact ⟨by simpa using hnq, hparse⟩
  simp only [hcond, if_true]

/-- C2 counterexample: (a) the exporter erases the control/target split —
two distinct circuits over the dialect gate `ccx` (canonical and
non-canonical split of the same qubits) export to the identical text while
not being equal up to gate order, so no importer whatsoever can round-trip
both; (b) for the dialect gate `ch` (a controlled gate the importer never
re-splits), importing the exported text concretely yields `targets=[0,1],
controls=None` instead of the original `targets=[1], controls=[0]`. -/
theorem C2_counterexample :
    export_circuit_to_qasm ccxSplitA = export_circuit_to_qasm ccxSplitB ∧
    ¬ circuitEquivUpToOrder ccxSplitA ccxSplitB ∧
    qasm2_loads_of_export chCircuit = some chParsedCircuit ∧
    ¬ circuitEquivUpToOrder (qiskit_circuit_to_json chParsedCircuit) chCircuit := by
  exact ⟨by decide, by decide, by decide, by decide⟩

/-- C2 witness: the amended round trip on a concrete safe circuit
(H, canonical CNOT, RX(1)). -/
theorem C2_witness :
    ∃ qc : QiskitCircuit, qasm2_loads_of_export safeBellCircuit = some qc ∧
      (qiskit_circuit_to_json qc).num_qubits = safeBellCircuit.num_qubits ∧
      (qiskit_circuit_to_json qc).gates = safeBellCircuit.gates ∧
      circuitEquivUpToOrder (qiskit_circuit_to_json qc) safeBellCircuit :=
  C2_round_trip safeBellCircuit (by decide) (by decide)
